import Mathlib

/-!
Verification development for the simple Arduino-based hybrid controller for
THE ANALOG THING (`simple_hybrid_controller.ino`).

The sketch keeps a handful of global `unsigned int` variables (phase times,
sequencer state, flags, channel count, sample interval), drives two digital
mode-control lines (MIC on D3, MOP on D4) plus a hybrid-enable line (D2),
and uses two hardware timers: Timer3 fires `state_machine` (the run
sequencer) and Timer5 fires `sample_adc` (the data logger).  `loop()` reads
one command line from the serial port and dispatches on the command word.

The shallow embedding below models:
  * a pin as a `Bool` level (`true` = HIGH, `false` = LOW);
  * a hardware timer as `Option Nat`: `none` when stopped,
    `some p` when running with period `p` microseconds
    (`TimerN.stop()` maps to `none`, `TimerN.initialize(p)` to `some p`);
  * the global variables, pin levels, timer states and the accumulated
    serial output as one record `St`;
  * `state_machine()` including its `do { ... } while (redo)` loop,
    by well-founded recursion on the numeric state code;
  * the command dispatch of `loop()` as a function `exec_command` over an
    inductive command type (the string tokenizer and `atoi` conversion are
    external to the sequencer; a value-carrying command holds the already
    converted unsigned value).
-/

namespace HybridController

/-! ### Constants from the preprocessor defines -/

@[simp] def IC : Int := 0

@[simp] def OP : Int := 1

@[simp] def HALT : Int := 2

@[simp] def STATE_IDLE : Nat := 0

@[simp] def STATE_SR_START : Nat := 1

@[simp] def STATE_SR_IC : Nat := 2

@[simp] def STATE_SR_OP : Nat := 3

@[simp] def DEFAULT_OP_TIME : Nat := 1000

@[simp] def DEFAULT_IC_TIME : Nat := 10

@[simp] def DEFAULT_CHANNELS : Nat := 1

@[simp] def MAX_CHANNELS : Nat := 4

@[simp] def MIN_INTERVAL : Nat := 1

/-! ### Pins and the mode driver -/

/-- Levels of the three digital output lines: D2 (ENABLE), D3 (MIC),
D4 (MOP).  `true` models HIGH, `false` models LOW.  All three lines are
active-low on the board (cf. the header comment: setting ENABLE to 0
enables hybrid mode), so a line is asserted when its level is `false`. -/
structure Pins where
  enable : Bool
  mic : Bool
  mop : Bool
  deriving DecidableEq, Repr

/-- Embeds `set_mode(int mode)`: writes the MIC/MOP levels for the three
defined modes and does nothing for any other argument. -/
def set_mode (mode : Int) (p : Pins) : Pins :=
  if mode = IC then
    { p with mic := false, mop := true }
  else if mode = OP then
    { p with mic := true, mop := false }
  else if mode = HALT then
    { p with mic := true, mop := true }
  else
    p

/-! ### The global state -/

/-- State of a hardware timer: `none` = stopped, `some p` = running with
period `p` microseconds. -/
abbrev TimerState := Option Nat

/-- The mutable state of the sketch: the global variables of the source,
the two timers, the output pins and the accumulated serial output (each
`Serial.print` appends one string). -/
structure St where
  op_time : Nat
  ic_time : Nat
  state : Nat
  repop : Bool
  channels : Nat
  interval : Nat
  armed : Bool
  timer3 : TimerState
  timer5 : TimerState
  pins : Pins
  out : List String
  deriving DecidableEq, Repr

/-- The state right after `setup()`: default globals, both timers stopped,
ENABLE driven HIGH; MIC/MOP have not been written yet (modelled LOW). -/
def st0 : St :=
  { op_time := DEFAULT_OP_TIME
    ic_time := DEFAULT_IC_TIME
    state := STATE_IDLE
    repop := false
    channels := DEFAULT_CHANNELS
    interval := MIN_INTERVAL
    armed := false
    timer3 := none
    timer5 := none
    pins := { enable := true, mic := false, mop := false }
    out := [] }

/-! ### The run sequencer -/

/-- One pass through the body of the `do { ... } while (redo)` loop of
`state_machine()`: dispatch on `state` and return the updated state
together with the value of `redo` at the end of the pass. -/
def sm_step (s : St) : St × Bool :=
  if s.state = STATE_SR_START then
    ({ s with state := STATE_SR_IC
              pins := set_mode IC s.pins
              timer3 := some (1000 * s.ic_time) }, false)
  else if s.state = STATE_SR_IC then
    let s1 := { s with timer3 := none
                       state := STATE_SR_OP
                       pins := set_mode OP s.pins }
    let s2 := if !s1.repop && s1.armed then
                { s1 with timer5 := some (1000 * s1.interval) }
              else s1
    ({ s2 with timer3 := some (1000 * s2.op_time) }, false)
  else if s.state = STATE_SR_OP then
    if !s.repop then
      ({ s with timer3 := none
                timer5 := none
                armed := false
                pins := set_mode HALT s.pins
                state := STATE_IDLE
                out := s.out ++ ["Single run ended.\n"] }, false)
    else
      ({ s with state := STATE_SR_START }, true)
  else
    (s, false)

/-- Only the repetitive branch of `STATE_SR_OP` asks for another pass,
and it moves the state code from 3 down to 1. -/
theorem sm_step_redo_lt (s : St) (h : (sm_step s).2 = true) :
    (sm_step s).1.state < s.state := by
  by_cases h1 : s.state = 1
  · simp [sm_step, h1] at h
  · by_cases h2 : s.state = 2
    · simp [sm_step, h1, h2] at h
    · by_cases h3 : s.state = 3
      · by_cases h4 : s.repop = true
        · simp [sm_step, h1, h2, h3, h4]
        · simp [sm_step, h1, h2, h3, h4] at h
      · simp [sm_step, h1, h2, h3] at h

/-- The `do { ... } while (redo)` loop of `state_machine()`. -/
def sm_loop (s : St) : St :=
  let p := sm_step s
  if h : p.2 = true then sm_loop p.1 else p.1
termination_by s.state
decreasing_by
  exact sm_step_redo_lt s h

/-- Embeds `state_machine()`: the `STATE_IDLE` prologue (stop Timer3 and
clear `repop`) followed by the redo loop. -/
def state_machine (s : St) : St :=
  let s1 := if s.state = STATE_IDLE then
              { s with timer3 := none, repop := false }
            else s
  sm_loop s1

/-! ### The command layer (`loop()`) -/

/-- A parsed command line, as dispatched by `loop()`.  The tokenizer and
`atoi` are outside the sequencer proper; a value-carrying constructor
holds the value of the `unsigned int` variable the source converts the
token into. -/
inductive Cmd where
  | arm
  | channels (n : Nat)
  | disable
  | enable
  | halt
  | help
  | ic
  | ictime (n : Nat)
  | interval (n : Nat)
  | op
  | optime (n : Nat)
  | rep
  | run
  | status
  | unknown (name : String)
  deriving DecidableEq, Repr

/-- Rendering of `String(VERSION)`: Arduino prints the double `0.1` with
two decimals. -/
def VERSION_STR : String := "0.10"

/-- Rendering of `String(x)` for an `unsigned int` holding a boolean flag
(`TRUE` = 1, `FALSE` = 0). -/
def flag_str (b : Bool) : String := if b then "1" else "0"

/-- The static help text printed by the `help` command. -/
def help_text : String :=
  "\nCommands:\n        arm                 Arm the data logger\n        channels=<value>    Set the number of channels to be logged\n        disable             Disable the hybrid controller\n        enable              Enable the hybrid controller\n        halt                Switch THAT into HALT mode\n        help                Print this help text\n        ic                  Switch THAT to IC mode\n        ictime=<value>      Set IC-time to value milliseconds\n        interval=<value>    Set the sampling interval to value ms\n        op                  Switch THAT to OP mode\n        optime=<value>      Set the OP-time to value milliseconds\n        rep                 Start repetitive operation\n        run                 Start a single run (with logging if armed)\n        status              Return status information\n        \n"

/-- The line printed by the `status` command. -/
def status_line (s : St) : String :=
  "version=" ++ VERSION_STR ++
  ",optime=" ++ toString s.op_time ++
  ",ictime=" ++ toString s.ic_time ++
  ",channels=" ++ toString s.channels ++
  ",armed=" ++ flag_str s.armed ++
  ",interval=" ++ toString s.interval ++ "\n"

/-- Embeds the command dispatch of `loop()`: one branch of the
`if/else if` chain per command word, in source order. -/
def exec_command (c : Cmd) (s : St) : St :=
  match c with
  | .arm =>
      { s with armed := true, out := s.out ++ ["Armed...\n"] }
  | .channels n =>
      if n < 1 || n > MAX_CHANNELS then
        { s with out := s.out ++ ["Illegal number of channels!\n"] }
      else
        { s with channels := n
                 out := s.out ++ ["channels=" ++ toString n ++ "\n"] }
  | .disable =>
      { s with pins := { s.pins with enable := true }
               out := s.out ++ ["Hybrid mode disabled.\n"] }
  | .enable =>
      { s with pins := { set_mode IC s.pins with enable := false }
               out := s.out ++ ["Hybrid mode enabled.\n"] }
  | .halt =>
      { s with pins := set_mode HALT s.pins
               state := STATE_IDLE
               armed := false
               timer3 := none
               timer5 := none
               out := s.out ++ ["HALT\n"] }
  | .help =>
      { s with out := s.out ++ [help_text] }
  | .ic =>
      { s with pins := set_mode IC s.pins
               state := STATE_IDLE
               armed := false
               timer3 := none
               timer5 := none
               out := s.out ++ ["IC\n"] }
  | .ictime n =>
      { s with ic_time := n
               out := s.out ++ ["ictime=" ++ toString n ++ "\n"] }
  | .interval n =>
      if n < MIN_INTERVAL then
        { s with out := s.out ++
            ["Illegal sample interval, must be >= " ++
             toString MIN_INTERVAL ++ "\n"] }
      else
        { s with interval := n
                 out := s.out ++ ["interval=" ++ toString n ++ "\n"] }
  | .op =>
      { s with pins := set_mode OP s.pins
               state := STATE_IDLE
               armed := false
               timer3 := none
               timer5 := none
               out := s.out ++ ["OP\n"] }
  | .optime n =>
      { s with op_time := n
               out := s.out ++ ["optime=" ++ toString n ++ "\n"] }
  | .rep =>
      state_machine
        { s with state := STATE_SR_START
                 repop := true
                 out := s.out ++ ["Repetitive operation...\n"] }
  | .run =>
      state_machine
        { s with state := STATE_SR_START
                 repop := false
                 out := s.out ++ ["Single run...\n"] }
  | .status =>
      { s with out := s.out ++ [status_line s] }
  | .unknown name =>
      { s with out := s.out ++ ["Illegal command >>> " ++ name ++ "\n"] }

/-- Runs a sequence of commands through the foreground loop, one line per
command. -/
def exec_list (cs : List Cmd) (s : St) : St :=
  cs.foldl (fun t c => exec_command c t) s

/-! ### Computation lemmas for `state_machine` -/

/-- Invoked while Idle, the state machine only stops Timer3 and clears
`repop` (the prologue), because no dispatch branch matches. -/
theorem state_machine_idle (s : St) (h : s.state = STATE_IDLE) :
    state_machine s = { s with timer3 := none, repop := false } := by
  unfold state_machine
  rw [if_pos h, sm_loop]
  simp [sm_step, h]

/-- Invoked in `STATE_SR_START`, the machine moves to `STATE_SR_IC`, sets
the device mode to IC and starts Timer3 with period `1000 * ic_time`. -/
theorem state_machine_start (s : St) (h : s.state = STATE_SR_START) :
    state_machine s =
      { s with state := STATE_SR_IC
               pins := set_mode IC s.pins
               timer3 := some (1000 * s.ic_time) } := by
  unfold state_machine
  rw [if_neg (by simp [h]), sm_loop]
  simp [sm_step, h]

/-- Invoked in `STATE_SR_IC`, the machine moves to `STATE_SR_OP`, sets the
device mode to OP, starts Timer5 with period `1000 * interval` exactly
when `!repop && armed`, and starts Timer3 with period `1000 * op_time`. -/
theorem state_machine_ic (s : St) (h : s.state = STATE_SR_IC) :
    state_machine s =
      { s with state := STATE_SR_OP
               pins := set_mode OP s.pins
               timer5 := if !s.repop && s.armed then
                           some (1000 * s.interval)
                         else s.timer5
               timer3 := some (1000 * s.op_time) } := by
  unfold state_machine
  rw [if_neg (by simp [h]), sm_loop]
  by_cases hra : (!s.repop && s.armed) = true
  · simp [sm_step, h, hra]
  · simp [sm_step, h, hra]

/-- Invoked in `STATE_SR_OP` with `repop` false, the machine stops both
timers, disarms the logger, sets the device mode to HALT, returns to
`STATE_IDLE` and prints the end-of-run notice. -/
theorem state_machine_op_single (s : St) (h : s.state = STATE_SR_OP)
    (hr : s.repop = false) :
    state_machine s =
      { s with timer3 := none
               timer5 := none
               armed := false
               pins := set_mode HALT s.pins
               state := STATE_IDLE
               out := s.out ++ ["Single run ended.\n"] } := by
  unfold state_machine
  rw [if_neg (by simp [h]), sm_loop]
  simp [sm_step, h, hr]

/-- Invoked in `STATE_SR_OP` with `repop` true, the machine loops back to
`STATE_SR_START` and, inside the same invocation, performs the
start-to-IC step: device mode IC and Timer3 running with period
`1000 * ic_time`. -/
theorem state_machine_op_rep (s : St) (h : s.state = STATE_SR_OP)
    (hr : s.repop = true) :
    state_machine s =
      { s with state := STATE_SR_IC
               pins := set_mode IC s.pins
               timer3 := some (1000 * s.ic_time) } := by
  unfold state_machine
  rw [if_neg (by simp [h]), sm_loop]
  rw [show (sm_step s).2 = true by simp [sm_step, h, hr]]
  simp only [if_true]
  rw [sm_loop]
  simp [sm_step, h, hr]

/-- Firing of the Timer3 interrupt: `setup()` attaches `state_machine` to
Timer3, so the handler runs exactly when Timer3 is running. -/
def timer3_tick (s : St) : St :=
  if s.timer3.isSome then state_machine s else s

/-- Effect of the `run` command: set `state` to `STATE_SR_START`, clear
`repop`, print, and run `state_machine`, which synchronously advances to
`STATE_SR_IC` and restarts Timer3; Timer5 is not touched. -/
theorem exec_run (s : St) :
    exec_command Cmd.run s =
      { s with state := STATE_SR_IC
               repop := false
               pins := set_mode IC s.pins
               timer3 := some (1000 * s.ic_time)
               out := s.out ++ ["Single run...\n"] } := by
  have h : exec_command Cmd.run s =
      state_machine { s with state := STATE_SR_START
                             repop := false
                             out := s.out ++ ["Single run...\n"] } := rfl
  rw [h, state_machine_start _ (by rfl)]

/-- Effect of the `rep` command: set `state` to `STATE_SR_START`, set
`repop`, print, and run `state_machine`, which synchronously advances to
`STATE_SR_IC` and restarts Timer3; Timer5 is not touched. -/
theorem exec_rep (s : St) :
    exec_command Cmd.rep s =
      { s with state := STATE_SR_IC
               repop := true
               pins := set_mode IC s.pins
               timer3 := some (1000 * s.ic_time)
               out := s.out ++ ["Repetitive operation...\n"] } := by
  have h : exec_command Cmd.rep s =
      state_machine { s with state := STATE_SR_START
                             repop := true
                             out := s.out ++ ["Repetitive operation...\n"] } := rfl
  rw [h, state_machine_start _ (by rfl)]

/-! ### Claims -/

/-- Claim C1: for every sequence of commands ending in an `ic`, `op` or
`halt` command, immediately after that command completes the sequencer
state is Idle, Timer3 and Timer5 are both stopped, and `armed` is false,
regardless of the prior state. -/
theorem c1_ic_op_halt_idle (cs : List Cmd) (c : Cmd) (s : St)
    (h : c = Cmd.ic ∨ c = Cmd.op ∨ c = Cmd.halt) :
    (exec_list (cs ++ [c]) s).state = STATE_IDLE ∧
    (exec_list (cs ++ [c]) s).timer3 = none ∧
    (exec_list (cs ++ [c]) s).timer5 = none ∧
    (exec_list (cs ++ [c]) s).armed = false := by
  have e : exec_list (cs ++ [c]) s = exec_command c (exec_list cs s) := by
    simp [exec_list]
  rw [e]
  rcases h with h | h | h <;> subst h <;> simp [exec_command]

/-- Witness for C1: a `rep` followed by a `halt` from the startup state
ends Idle with both timers stopped and the logger disarmed. -/
theorem c1_ic_op_halt_idle_witness :
    (Cmd.halt = Cmd.ic ∨ Cmd.halt = Cmd.op ∨ Cmd.halt = Cmd.halt) ∧
    ((exec_list ([Cmd.rep] ++ [Cmd.halt]) st0).state = STATE_IDLE ∧
     (exec_list ([Cmd.rep] ++ [Cmd.halt]) st0).timer3 = none ∧
     (exec_list ([Cmd.rep] ++ [Cmd.halt]) st0).timer5 = none ∧
     (exec_list ([Cmd.rep] ++ [Cmd.halt]) st0).armed = false) :=
  ⟨Or.inr (Or.inr rfl),
   c1_ic_op_halt_idle [Cmd.rep] Cmd.halt st0 (Or.inr (Or.inr rfl))⟩

/-- Counterexample to claim C2 as stated: issuing `halt` during a
repetitive run (here: right after `rep` from the startup state) forces
the sequencer state to Idle, but when the command completes the
`repeating` flag is still true — the command layer never clears
`repop`. -/
theorem c2_halt_keeps_repeating :
    (exec_command Cmd.halt (exec_command Cmd.rep st0)).state = STATE_IDLE ∧
    (exec_command Cmd.halt (exec_command Cmd.rep st0)).timer3 = none ∧
    (exec_command Cmd.halt (exec_command Cmd.rep st0)).repop = true := by
  rw [exec_rep st0]
  exact ⟨rfl, rfl, rfl⟩

/-- Claim C2 (amended): every transition of the sequencer state to Idle
stops the phase timer (Timer3).  The machine's own end-of-single-run
transition to Idle also finishes with `repeating` false, and a
`state_machine` invocation that finds the state already Idle clears
`repeating`; but the command-layer `ic`, `op` and `halt` commands leave
`repeating` unchanged — they do not clear it before returning. -/
theorem c2_idle_transitions (s : St) :
    ((exec_command Cmd.halt s).state = STATE_IDLE ∧
     (exec_command Cmd.halt s).timer3 = none ∧
     (exec_command Cmd.halt s).repop = s.repop) ∧
    ((exec_command Cmd.ic s).state = STATE_IDLE ∧
     (exec_command Cmd.ic s).timer3 = none ∧
     (exec_command Cmd.ic s).repop = s.repop) ∧
    ((exec_command Cmd.op s).state = STATE_IDLE ∧
     (exec_command Cmd.op s).timer3 = none ∧
     (exec_command Cmd.op s).repop = s.repop) ∧
    (s.state = STATE_SR_OP → s.repop = false →
     (state_machine s).state = STATE_IDLE ∧
     (state_machine s).timer3 = none ∧
     (state_machine s).repop = false) ∧
    (s.state = STATE_IDLE →
     (state_machine s).timer3 = none ∧
     (state_machine s).repop = false) := by
  refine ⟨⟨rfl, rfl, rfl⟩, ⟨rfl, rfl, rfl⟩, ⟨rfl, rfl, rfl⟩, ?_, ?_⟩
  · intro h hr
    rw [state_machine_op_single s h hr]
    exact ⟨rfl, rfl, hr⟩
  · intro h
    rw [state_machine_idle s h]
    exact ⟨rfl, rfl⟩

/-- Witness for C2 (amended) at concrete inputs: the end of a single run
from `STATE_SR_OP`, and an Idle invocation of the machine. -/
theorem c2_idle_transitions_witness :
    ((state_machine { st0 with state := STATE_SR_OP, timer3 := some 5 }).state
       = STATE_IDLE ∧
     (state_machine { st0 with state := STATE_SR_OP, timer3 := some 5 }).timer3
       = none) ∧
    (state_machine st0).repop = false ∧
    (exec_command Cmd.halt st0).repop = st0.repop := by
  have h4 := (c2_idle_transitions
    { st0 with state := STATE_SR_OP, timer3 := some 5 }).2.2.2.1 rfl rfl
  have h5 := (c2_idle_transitions st0).2.2.2.2 rfl
  have h1 := (c2_idle_transitions st0).1
  exact ⟨⟨h4.1, h4.2.1⟩, h5.2, h1.2.2⟩

/-- Counterexample to claim C3 as stated: during the armed single run
started by `arm`, `run` and the Timer3 expiry that moves the machine
from IC to OP, Timer5 is running with period 1000 µs; issuing `rep`
there does not stop the sample timer — it is still running with the same
period after the command completes. -/
theorem c3_rep_keeps_sample_timer :
    (exec_command Cmd.rep
       (timer3_tick (exec_list [Cmd.arm, Cmd.run] st0))).timer5
      = some 1000 := by
  have e1 : exec_list [Cmd.arm, Cmd.run] st0 =
      { st0 with armed := true
                 state := STATE_SR_IC
                 timer3 := some 10000
                 pins := { enable := true, mic := false, mop := true }
                 out := ["Armed...\n", "Single run...\n"] } := by
    show exec_command Cmd.run (exec_command Cmd.arm st0) = _
    rw [exec_run]
    rfl
  have e2 : timer3_tick
      { st0 with armed := true
                 state := STATE_SR_IC
                 timer3 := some 10000
                 pins := { enable := true, mic := false, mop := true }
                 out := ["Armed...\n", "Single run...\n"] } =
      state_machine
      { st0 with armed := true
                 state := STATE_SR_IC
                 timer3 := some 10000
                 pins := { enable := true, mic := false, mop := true }
                 out := ["Armed...\n", "Single run...\n"] } := rfl
  rw [e1, e2, state_machine_ic _ rfl, exec_rep]
  rfl

/-- Claim C3 (amended): `run` and `rep` set `repeating` to false resp.
true and enter PhaseStart, whose evaluation runs synchronously: the
command completes in `STATE_SR_IC` with the device mode set to IC and
Timer3 restarted with period `1000 * ic_time`.  Neither command stops
Timer5: the sample timer keeps its prior state.  From Idle these are the
only commands that move the machine off Idle: every other command leaves
the sequencer state Idle, while `run` and `rep` always leave a non-Idle
state behind. -/
theorem c3_run_rep_start (s : St) :
    (exec_command Cmd.run s =
      { s with state := STATE_SR_IC
               repop := false
               pins := set_mode IC s.pins
               timer3 := some (1000 * s.ic_time)
               out := s.out ++ ["Single run...\n"] }) ∧
    (exec_command Cmd.rep s =
      { s with state := STATE_SR_IC
               repop := true
               pins := set_mode IC s.pins
               timer3 := some (1000 * s.ic_time)
               out := s.out ++ ["Repetitive operation...\n"] }) ∧
    (exec_command Cmd.run s).timer5 = s.timer5 ∧
    (exec_command Cmd.rep s).timer5 = s.timer5 ∧
    (s.state = STATE_IDLE → ∀ c : Cmd, c ≠ Cmd.run → c ≠ Cmd.rep →
      (exec_command c s).state = STATE_IDLE) ∧
    (exec_command Cmd.run s).state ≠ STATE_IDLE ∧
    (exec_command Cmd.rep s).state ≠ STATE_IDLE := by
  refine ⟨exec_run s, exec_rep s, ?_, ?_, ?_, ?_, ?_⟩
  · rw [exec_run s]
  · rw [exec_rep s]
  · intro h c hr1 hr2
    cases c
    case run => exact absurd rfl hr1
    case rep => exact absurd rfl hr2
    case channels n =>
      simp only [exec_command]
      split <;> exact h
    case interval n =>
      simp only [exec_command]
      split <;> exact h
    all_goals simp [exec_command, h]
  · rw [exec_run s]
    simp
  · rw [exec_rep s]
    simp

/-- Witness for C3 (amended): from the startup state, `run` leaves Timer5
stopped (unchanged), a non-run/rep command (`arm`) keeps the state Idle,
and `run` moves it off Idle. -/
theorem c3_run_rep_start_witness :
    (exec_command Cmd.run st0).timer5 = st0.timer5 ∧
    st0.state = STATE_IDLE ∧
    (Cmd.arm ≠ Cmd.run ∧ Cmd.arm ≠ Cmd.rep) ∧
    (exec_command Cmd.arm st0).state = STATE_IDLE ∧
    (exec_command Cmd.run st0).state ≠ STATE_IDLE :=
  ⟨(c3_run_rep_start st0).2.2.1, rfl, ⟨by decide, by decide⟩,
   (c3_run_rep_start st0).2.2.2.2.1 rfl Cmd.arm (by decide) (by decide),
   (c3_run_rep_start st0).2.2.2.2.2.1⟩

/-- Counterexample to claim C4 as stated: `disable` does not stop either
timer — with both timers running, the state after `disable` still has
Timer3 and Timer5 running with their old periods. -/
theorem c4_disable_keeps_timers :
    (exec_command Cmd.disable
       { st0 with timer3 := some 7, timer5 := some 9 }).timer3 = some 7 ∧
    (exec_command Cmd.disable
       { st0 with timer3 := some 7, timer5 := some 9 }).timer5 = some 9 :=
  ⟨rfl, rfl⟩

/-- Claim C4 (amended): `disable` only drives the hybrid-enable line HIGH
(deasserted) and leaves both timers untouched; it is the `ic`, `op` and
`halt` commands that immediately and unconditionally stop both timers
regardless of their current state.  Stopping is setting the timer to the
stopped state, so stopping an already-stopped timer is a no-op and never
an error. -/
theorem c4_cancellation (s : St) :
    (exec_command Cmd.disable s).timer3 = s.timer3 ∧
    (exec_command Cmd.disable s).timer5 = s.timer5 ∧
    (exec_command Cmd.disable s).pins.enable = true ∧
    (exec_command Cmd.ic s).timer3 = none ∧
    (exec_command Cmd.ic s).timer5 = none ∧
    (exec_command Cmd.op s).timer3 = none ∧
    (exec_command Cmd.op s).timer5 = none ∧
    (exec_command Cmd.halt s).timer3 = none ∧
    (exec_command Cmd.halt s).timer5 = none :=
  ⟨rfl, rfl, rfl, rfl, rfl, rfl, rfl, rfl, rfl⟩

/-- Claim C5: invoked with state `STATE_SR_IC`, the state machine performs
exactly: stop Timer3, set the device mode to OP, start Timer5 with period
`1000 * interval` iff `repop` is false and `armed` is true at that
moment, and start Timer3 with period `1000 * op_time`; in particular the
sample timer is never started during a repetitive or unarmed run. -/
theorem c5_phase_ic_step (s : St) (h : s.state = STATE_SR_IC) :
    state_machine s =
      { s with state := STATE_SR_OP
               pins := set_mode OP s.pins
               timer5 := if !s.repop && s.armed then
                           some (1000 * s.interval)
                         else s.timer5
               timer3 := some (1000 * s.op_time) } ∧
    (s.repop = true ∨ s.armed = false →
      (state_machine s).timer5 = s.timer5) := by
  refine ⟨state_machine_ic s h, ?_⟩
  intro hc
  rw [state_machine_ic s h]
  have : (!s.repop && s.armed) = false := by
    rcases hc with hc | hc <;> simp [hc]
  simp [this]

/-- Witness for C5: the IC-phase step of an armed single run from the
startup configuration starts Timer5 with period 1000 µs and Timer3 with
period 1000000 µs, and a repetitive variant leaves Timer5 stopped. -/
theorem c5_phase_ic_step_witness :
    ((state_machine { st0 with state := STATE_SR_IC, armed := true,
                               timer3 := some 10000 }).timer5 = some 1000 ∧
     (state_machine { st0 with state := STATE_SR_IC, armed := true,
                               timer3 := some 10000 }).timer3 = some 1000000 ∧
     (state_machine { st0 with state := STATE_SR_IC, armed := true,
                               timer3 := some 10000 }).state = STATE_SR_OP) ∧
    (state_machine { st0 with state := STATE_SR_IC, repop := true,
                              timer3 := some 10000 }).timer5 = none := by
  have h1 := (c5_phase_ic_step
    { st0 with state := STATE_SR_IC, armed := true, timer3 := some 10000 }
    rfl).1
  have h2 := (c5_phase_ic_step
    { st0 with state := STATE_SR_IC, repop := true, timer3 := some 10000 }
    rfl).2 (Or.inl rfl)
  rw [h1, h2]
  exact ⟨⟨rfl, rfl, rfl⟩, rfl⟩

/-- Claim C6: invoked with state `STATE_SR_OP` and `repop` false, the
state machine stops Timer3 and Timer5, clears `armed`, sets the device
mode to HALT, moves the state to `STATE_IDLE` and prints the end-of-run
notice. -/
theorem c6_single_run_end (s : St) (h : s.state = STATE_SR_OP)
    (hr : s.repop = false) :
    state_machine s =
      { s with timer3 := none
               timer5 := none
               armed := false
               pins := set_mode HALT s.pins
               state := STATE_IDLE
               out := s.out ++ ["Single run ended.\n"] } :=
  state_machine_op_single s h hr

/-- Witness for C6: the end of an armed single run (Timer5 running) from
the startup configuration. -/
theorem c6_single_run_end_witness :
    state_machine
      { st0 with state := STATE_SR_OP, armed := true,
                 timer3 := some 1000000, timer5 := some 1000 } =
      { st0 with state := STATE_IDLE, armed := false,
                 timer3 := none, timer5 := none,
                 pins := { enable := true, mic := true, mop := true },
                 out := ["Single run ended.\n"] } := by
  rw [c6_single_run_end
    { st0 with state := STATE_SR_OP, armed := true,
               timer3 := some 1000000, timer5 := some 1000 } rfl rfl]
  rfl

/-- Claim C7: invoked with state `STATE_SR_OP` and `repop` true, the
machine moves back to `STATE_SR_START` and performs the start-to-IC step
(device mode IC, Timer3 started with period `1000 * ic_time`) inside the
same single invocation; it returns in `STATE_SR_IC`, waiting for the next
Timer3 expiry, with everything else unchanged. -/
theorem c7_rep_cycle_synchronous (s : St) (h : s.state = STATE_SR_OP)
    (hr : s.repop = true) :
    state_machine s =
      { s with state := STATE_SR_IC
               pins := set_mode IC s.pins
               timer3 := some (1000 * s.ic_time) } :=
  state_machine_op_rep s h hr

/-- Witness for C7: one OP-phase expiry of a repetitive run from the
startup configuration restarts the cycle at IC within the same call. -/
theorem c7_rep_cycle_synchronous_witness :
    state_machine
      { st0 with state := STATE_SR_OP, repop := true,
                 timer3 := some 1000000 } =
      { st0 with state := STATE_SR_IC, repop := true,
                 timer3 := some 10000,
                 pins := { enable := true, mic := false, mop := true } } := by
  rw [c7_rep_cycle_synchronous
    { st0 with state := STATE_SR_OP, repop := true,
               timer3 := some 1000000 } rfl rfl]
  rfl

/-- Claim C8: `channels=N` with N outside [1,4] and `interval=N` with N
below the minimum floor print a descriptive error and change nothing
else; with an in-range N they set the field to N and echo the new
value. -/
theorem c8_param_validation (s : St) (n : Nat) :
    (n < 1 ∨ n > MAX_CHANNELS →
      exec_command (Cmd.channels n) s =
        { s with out := s.out ++ ["Illegal number of channels!\n"] }) ∧
    (1 ≤ n → n ≤ MAX_CHANNELS →
      exec_command (Cmd.channels n) s =
        { s with channels := n
                 out := s.out ++ ["channels=" ++ toString n ++ "\n"] }) ∧
    (n < MIN_INTERVAL →
      exec_command (Cmd.interval n) s =
        { s with out := s.out ++
            ["Illegal sample interval, must be >= " ++
             toString MIN_INTERVAL ++ "\n"] }) ∧
    (MIN_INTERVAL ≤ n →
      exec_command (Cmd.interval n) s =
        { s with interval := n
                 out := s.out ++ ["interval=" ++ toString n ++ "\n"] }) := by
  refine ⟨?_, ?_, ?_, ?_⟩
  · intro hn
    have hc : (decide (n < 1) || decide (n > MAX_CHANNELS)) = true := by
      rcases hn with hn | hn <;> simp only [MAX_CHANNELS, gt_iff_lt] at hn ⊢ <;>
        simp [hn]
    simp only [exec_command, hc, if_true]
  · intro h1 h4
    have hc : (decide (n < 1) || decide (n > MAX_CHANNELS)) = false := by
      simp only [MAX_CHANNELS] at h4
      simp [Nat.not_lt.mpr h1, Nat.not_lt.mpr h4]
    simp only [exec_command, hc, Bool.false_eq_true, if_false]
  · intro hn
    simp only [exec_command, if_pos hn]
  · intro hn
    simp only [exec_command, if_neg (Nat.not_lt.mpr hn)]

/-- Witness for C8: `channels=5` is rejected and `channels=3` accepted;
`interval=0` is rejected and `interval=2` accepted, from the startup
configuration. -/
theorem c8_param_validation_witness :
    (exec_command (Cmd.channels 5) st0).channels = 1 ∧
    (exec_command (Cmd.channels 3) st0).channels = 3 ∧
    (exec_command (Cmd.interval 0) st0).interval = 1 ∧
    (exec_command (Cmd.interval 2) st0).interval = 2 := by
  rw [(c8_param_validation st0 5).1 (Or.inr (by decide)),
      (c8_param_validation st0 3).2.1 (by decide) (by decide),
      (c8_param_validation st0 0).2.2.1 (by decide),
      (c8_param_validation st0 2).2.2.2 (by decide)]
  exact ⟨rfl, rfl, rfl, rfl⟩

/-- Claim C9: `set_mode(IC)` drives MIC LOW (asserted, the lines are
active-low) and MOP HIGH (deasserted); `set_mode(OP)` drives MIC HIGH
and MOP LOW; `set_mode(HALT)` drives both lines HIGH simultaneously.
Each call is a total function on the pin state, touching nothing but the
two mode lines. -/
theorem c9_set_mode_lines (p : Pins) :
    set_mode IC p = { p with mic := false, mop := true } ∧
    set_mode OP p = { p with mic := true, mop := false } ∧
    set_mode HALT p = { p with mic := true, mop := true } ∧
    (set_mode IC p).enable = p.enable ∧
    (set_mode OP p).enable = p.enable ∧
    (set_mode HALT p).enable = p.enable := by
  refine ⟨?_, ?_, ?_, ?_, ?_, ?_⟩ <;> simp [set_mode]

/-- Claim C10: for every argument outside the three defined modes
(IC = 0, OP = 1, HALT = 2), `set_mode` writes neither control line and
leaves the pin state unchanged. -/
theorem c10_set_mode_no_op (m : Int) (p : Pins)
    (h0 : m ≠ IC) (h1 : m ≠ OP) (h2 : m ≠ HALT) :
    set_mode m p = p := by
  simp only [IC, OP, HALT] at h0 h1 h2
  simp [set_mode, h0, h1, h2]

/-- Witness for C10 at the concrete out-of-range argument 3. -/
theorem c10_set_mode_no_op_witness :
    ((3 : Int) ≠ IC ∧ (3 : Int) ≠ OP ∧ (3 : Int) ≠ HALT) ∧
    set_mode 3 { enable := true, mic := false, mop := false } =
      { enable := true, mic := false, mop := false } :=
  ⟨⟨by decide, by decide, by decide⟩,
   c10_set_mode_no_op 3 { enable := true, mic := false, mop := false }
     (by decide) (by decide) (by decide)⟩

end HybridController
